import Mathlib

/-!
Shallow embedding of the BasisMind decision engine (modules `config`,
`scoring`, `premium`, `auxiliaries`, `overrides`, `book`, `engine`), with
theorems checking the natural-language specification against it.

Modelling conventions:
* Python floats are modelled as `ℚ`; `None`-able floats as `Option ℚ`.
* Python `round(x, n)` (banker's rounding to `n` decimal digits) is modelled
  by `py_round` below.
* Functions that raise `ValueError` are modelled with `Except String`.
* Log output and the human-readable `reason` strings carried by overrides and
  reports are dropped: they never influence control flow or numeric results.
* Dates are modelled by their month (`ℕ`), the only component the code reads.
-/

/-- Banker's rounding (round half to even) of a rational to an integer,
modelling Python's `round` on exact values. -/
def roundHalfEven (y : ℚ) : ℤ :=
  if y - ⌊y⌋ < 1/2 then ⌊y⌋
  else if y - ⌊y⌋ > 1/2 then ⌊y⌋ + 1
  else if ⌊y⌋ % 2 = 0 then ⌊y⌋ else ⌊y⌋ + 1

/-- Python `round(x, ndigits)` on exact rationals. -/
def py_round (x : ℚ) (ndigits : ℕ) : ℚ :=
  (roundHalfEven (x * 10 ^ ndigits) : ℚ) / 10 ^ ndigits

/- ### config.py -/

def SAFRA_MONTHS : List ℕ := [3, 4, 5, 6, 7]

def ENTRESSAFRA_MONTHS : List ℕ := [1, 2, 8, 9, 10, 11, 12]

def MIN_HISTORICAL_SAMPLES : ℕ := 30

def PREMIUM_THRESHOLD_BAIXO : ℚ := 40

def PREMIUM_THRESHOLD_ALTO : ℚ := 80

def LINEUP_DROP_OVERRIDE_THRESHOLD : ℚ := -10

def LINEUP_TREND_FORTE_QUEDA : ℚ := -15

def LINEUP_TREND_FORTE_ALTA : ℚ := 15

def CRITICAL_SPREAD_THRESHOLD : ℚ := 15

def COMPETITIVENESS_MUITO_BARATO : ℚ := -20

def COMPETITIVENESS_MUITO_CARO : ℚ := 20

def CAMBIO_FORTE_THRESHOLD : ℚ := 3

def DEMAND_Z_FORTE : ℚ := 1.5

def SCORING_WEIGHT_LINEUP : ℚ := 0.30

def SCORING_WEIGHT_PREMIUM : ℚ := 0.25

def SCORING_WEIGHT_COMPETITIVENESS : ℚ := 0.20

def SCORING_WEIGHT_DEMAND : ℚ := 0.15

def SCORING_WEIGHT_CAMBIO : ℚ := 0.10

def SCORING_FISICO_MUITO_FORTE : ℚ := 80

def SCORING_FISICO_FORTE : ℚ := 65

def SCORING_FISICO_FRACO : ℚ := 35

def SCORING_FISICO_MUITO_FRACO : ℚ := 20

def HEDGE_PERCENTIL_MUITO_ALTO : ℚ := 80

def HEDGE_PERCENTIL_ALTO : ℚ := 65

def HEDGE_PERCENTIL_BAIXO : ℚ := 35

def HEDGE_PERCENTIL_MUITO_BAIXO : ℚ := 20

def BOOK_HEDGE_TOLERANCE_PP : ℚ := 20

def DEFAULT_LIMITE_LONG_PCT : ℚ := 80

def DEFAULT_LIMITE_SHORT_PCT : ℚ := -50

def DEFAULT_HEDGE_META_PCT : ℚ := 60

/- ### scoring.py -/

inductive PhysicalRecommendation where
  | REDUZIR_FORTE
  | REDUZIR
  | MANTER
  | AUMENTAR
  | AUMENTAR_FORTE
deriving DecidableEq, Repr

inductive HedgeRecommendation where
  | REDUZIR_FORTE
  | REDUZIR
  | MANTER
  | AUMENTAR
  | AUMENTAR_FORTE
deriving DecidableEq, Repr

inductive Intensity where
  | FORTE
  | MODERADA
  | NEUTRA
deriving DecidableEq, Repr

inductive PhysicalClassification where
  | MUITO_FRACO
  | FRACO
  | NEUTRO
  | FORTE
  | MUITO_FORTE
deriving DecidableEq, Repr

structure ComponentScores where
  lineup : ℚ
  premium : ℚ
  competitiveness : ℚ
  demand : ℚ
  cambio : ℚ
deriving DecidableEq, Repr

structure PhysicalResult where
  recommendation : PhysicalRecommendation
  intensity : Intensity
  sizing_pct : ℚ
deriving DecidableEq, Repr

structure HedgeResult where
  recommendation : HedgeRecommendation
  intensity : Intensity
  delta_pp : ℚ
deriving DecidableEq, Repr

structure ScoringResult where
  month : ℕ
  score_fisico : ℚ
  classification : PhysicalClassification
  components : ComponentScores
  physical : PhysicalResult
  hedge : HedgeResult
  chicago_percentile : ℚ
  chicago_is_spike : Bool
deriving DecidableEq, Repr

def _clamp (value : ℚ) (min_val : ℚ := 0) (max_val : ℚ := 100) : ℚ :=
  max min_val (min max_val value)

def _linear_map (value in_min in_max : ℚ) (out_min : ℚ := 0)
    (out_max : ℚ := 100) : ℚ :=
  if in_max = in_min then (out_min + out_max) / 2
  else
    let t := (value - in_min) / (in_max - in_min)
    _clamp (out_min + t * (out_max - out_min)) (min out_min out_max)
      (max out_min out_max)

def score_lineup (var_semanal : Option ℚ) : ℚ :=
  match var_semanal with
  | none => 50
  | some v => _linear_map v LINEUP_TREND_FORTE_QUEDA LINEUP_TREND_FORTE_ALTA 0 100

def score_premium (percentile : ℚ) : ℚ :=
  _clamp percentile

def score_competitiveness (spread_adjusted : ℚ) : ℚ :=
  _linear_map spread_adjusted COMPETITIVENESS_MUITO_CARO COMPETITIVENESS_MUITO_BARATO 0 100

def score_demand (z_pace : Option ℚ) : ℚ :=
  match z_pace with
  | none => 50
  | some z => _linear_map z (-DEMAND_Z_FORTE) DEMAND_Z_FORTE 0 100

def score_cambio (var_5d : Option ℚ) : ℚ :=
  match var_5d with
  | none => 50
  | some v => _linear_map v CAMBIO_FORTE_THRESHOLD (-CAMBIO_FORTE_THRESHOLD) 0 100

def compute_component_scores (var_semanal_lineup : Option ℚ)
    (percentil_premium spread_adjusted : ℚ) (z_pace var_cambio_5d : Option ℚ) :
    ComponentScores :=
  { lineup := score_lineup var_semanal_lineup
    premium := score_premium percentil_premium
    competitiveness := score_competitiveness spread_adjusted
    demand := score_demand z_pace
    cambio := score_cambio var_cambio_5d }

def compute_score_fisico (components : ComponentScores) : ℚ :=
  _clamp
    (SCORING_WEIGHT_LINEUP * components.lineup
      + SCORING_WEIGHT_PREMIUM * components.premium
      + SCORING_WEIGHT_COMPETITIVENESS * components.competitiveness
      + SCORING_WEIGHT_DEMAND * components.demand
      + SCORING_WEIGHT_CAMBIO * components.cambio)

def classify_score_fisico (score : ℚ) : PhysicalClassification :=
  if score ≥ SCORING_FISICO_MUITO_FORTE then .MUITO_FORTE
  else if score ≥ SCORING_FISICO_FORTE then .FORTE
  else if score ≤ SCORING_FISICO_MUITO_FRACO then .MUITO_FRACO
  else if score ≤ SCORING_FISICO_FRACO then .FRACO
  else .NEUTRO

def determine_intensity (score : ℚ) : Intensity :=
  if score > 80 ∨ score < 20 then .FORTE
  else if score > 65 ∨ score < 35 then .MODERADA
  else .NEUTRA

def compute_physical_recommendation (score : ℚ) : PhysicalResult :=
  let intensity := determine_intensity score
  if score ≥ SCORING_FISICO_MUITO_FORTE then
    ⟨.AUMENTAR_FORTE, .FORTE, 25⟩
  else if score ≥ SCORING_FISICO_FORTE then
    ⟨.AUMENTAR, intensity, 15⟩
  else if score ≤ SCORING_FISICO_MUITO_FRACO then
    ⟨.REDUZIR_FORTE, .FORTE, -25⟩
  else if score ≤ SCORING_FISICO_FRACO then
    ⟨.REDUZIR, intensity, -15⟩
  else
    ⟨.MANTER, .NEUTRA, 0⟩

def compute_hedge_recommendation (chicago_percentile : ℚ)
    (is_speculative_spike : Bool := false) : HedgeResult :=
  if is_speculative_spike ∧ chicago_percentile ≥ 50 then
    ⟨.AUMENTAR, .MODERADA, 10⟩
  else if chicago_percentile ≥ HEDGE_PERCENTIL_MUITO_ALTO then
    ⟨.AUMENTAR_FORTE, .FORTE, 20⟩
  else if chicago_percentile ≥ HEDGE_PERCENTIL_ALTO then
    ⟨.AUMENTAR, .MODERADA, 10⟩
  else if chicago_percentile ≤ HEDGE_PERCENTIL_MUITO_BAIXO then
    ⟨.REDUZIR_FORTE, .FORTE, -20⟩
  else if chicago_percentile ≤ HEDGE_PERCENTIL_BAIXO then
    ⟨.REDUZIR, .MODERADA, -10⟩
  else
    ⟨.MANTER, .NEUTRA, 0⟩

def compute_scoring (month : ℕ) (var_semanal_lineup : Option ℚ)
    (percentil_premium spread_adjusted : ℚ) (z_pace var_cambio_5d : Option ℚ)
    (chicago_percentile : ℚ) (chicago_is_spike : Bool := false) : ScoringResult :=
  let components := compute_component_scores var_semanal_lineup percentil_premium
    spread_adjusted z_pace var_cambio_5d
  let score_fisico := compute_score_fisico components
  { month := month
    score_fisico := score_fisico
    classification := classify_score_fisico score_fisico
    components := components
    physical := compute_physical_recommendation score_fisico
    hedge := compute_hedge_recommendation chicago_percentile chicago_is_spike
    chicago_percentile := chicago_percentile
    chicago_is_spike := chicago_is_spike }

/- ### premium.py -/

inductive Regime where
  | safra
  | entressafra
deriving DecidableEq, Repr

inductive PremiumClassification where
  | MUITO_BAIXO
  | BAIXO
  | NEUTRO
  | ALTO
  | MUITO_ALTO
deriving DecidableEq, Repr

structure PremiumResult where
  month : ℕ
  premium_raw : ℚ
  regime : Regime
  percentile : ℚ
  classification : PremiumClassification
  historical_count : ℕ
deriving DecidableEq, Repr

def get_regime (month : ℕ) : Regime :=
  if month ∈ SAFRA_MONTHS then .safra else .entressafra

namespace premium

/-- `premium.calculate_percentile`: raises (`Except.error`) on an empty
historical sample; otherwise the rank-based percentile with tie splitting,
rounded to two decimal digits. -/
def calculate_percentile (value : ℚ) (historical : List ℚ) : Except String ℚ :=
  if historical = [] then
    .error "Histórico vazio para cálculo de percentil"
  else
    let count_below : ℕ := (historical.filter (fun h => h < value)).length
    let count_equal : ℕ := (historical.filter (fun h => h = value)).length
    .ok (py_round (((count_below : ℚ) + 0.5 * count_equal) / historical.length * 100) 2)

/-- `premium.classify_premium`: first matching band of the
`CLASSIFICATION_THRESHOLDS` table in insertion order, defaulting to
`MUITO_ALTO`. -/
def classify_premium (percentile : ℚ) : PremiumClassification :=
  if 0 ≤ percentile ∧ percentile < 20 then .MUITO_BAIXO
  else if 20 ≤ percentile ∧ percentile < 40 then .BAIXO
  else if 40 ≤ percentile ∧ percentile < 60 then .NEUTRO
  else if 60 ≤ percentile ∧ percentile < 80 then .ALTO
  else if 80 ≤ percentile ∧ percentile < 100 then .MUITO_ALTO
  else .MUITO_ALTO

/-- `premium.normalize_premium`. The `premium is None` guard of the source is
unrepresentable here because `premium` is typed (`float` → `ℚ`); the
small-sample branch only logs a warning, which is dropped. -/
def normalize_premium (month : ℕ) (premium : ℚ) (historical_by_regime : List ℚ) :
    Except String PremiumResult :=
  let regime := get_regime month
  match calculate_percentile premium historical_by_regime with
  | .error e => .error e
  | .ok percentile =>
      .ok { month := month
            premium_raw := premium
            regime := regime
            percentile := percentile
            classification := classify_premium percentile
            historical_count := historical_by_regime.length }

end premium

namespace auxiliaries

/-- `auxiliaries.calculate_percentile`: unlike the premium version, an empty
history yields the neutral value `50` instead of an error. -/
def calculate_percentile (value : ℚ) (historical : List ℚ) : ℚ :=
  if historical = [] then 50
  else
    let count_below : ℕ := (historical.filter (fun h => h < value)).length
    let count_equal : ℕ := (historical.filter (fun h => h = value)).length
    py_round (((count_below : ℚ) + 0.5 * count_equal) / historical.length * 100) 2

end auxiliaries

/- ### overrides.py -/

inductive OverrideType where
  | LOGISTICA
  | QUEDA_CONJUNTA
  | ARMADILHA_PREMIUM
  | COMPETITIVIDADE_CRITICA
  | CHICAGO_ESPECULATIVO
deriving DecidableEq, Repr

def OVERRIDE_PRIORITY : OverrideType → ℕ
  | .LOGISTICA => 1
  | .QUEDA_CONJUNTA => 2
  | .ARMADILHA_PREMIUM => 3
  | .COMPETITIVIDADE_CRITICA => 4
  | .CHICAGO_ESPECULATIVO => 5

/-- `overrides.Override`, minus the human-readable `reason` string. -/
structure Override where
  type : OverrideType
  physical_action : Option PhysicalResult
  hedge_action : Option HedgeResult
  priority : ℕ
deriving DecidableEq, Repr

def Override.affects_physical (o : Override) : Prop :=
  o.physical_action ≠ none

def Override.affects_hedge (o : Override) : Prop :=
  o.hedge_action ≠ none

structure OverrideEvaluation where
  active_overrides : List Override
  dominant_override : Option Override
  original_physical : PhysicalResult
  original_hedge : HedgeResult
  final_physical : PhysicalResult
  final_hedge : HedgeResult
deriving DecidableEq, Repr

def OverrideEvaluation.has_override (ev : OverrideEvaluation) : Prop :=
  ev.dominant_override ≠ none

def check_queda_conjunta (var_semanal_lineup : Option ℚ)
    (percentil_premium : ℚ) : Option Override :=
  match var_semanal_lineup with
  | none => none
  | some v =>
      if v < LINEUP_DROP_OVERRIDE_THRESHOLD ∧ percentil_premium < PREMIUM_THRESHOLD_BAIXO then
        some { type := .QUEDA_CONJUNTA
               physical_action := some ⟨.REDUZIR, .FORTE, -20⟩
               hedge_action := none
               priority := OVERRIDE_PRIORITY .QUEDA_CONJUNTA }
      else none

def check_armadilha_premio (var_semanal_lineup : Option ℚ)
    (percentil_premium : ℚ) : Option Override :=
  match var_semanal_lineup with
  | none => none
  | some v =>
      if v < LINEUP_DROP_OVERRIDE_THRESHOLD ∧ percentil_premium > PREMIUM_THRESHOLD_ALTO then
        some { type := .ARMADILHA_PREMIUM
               physical_action := some ⟨.REDUZIR_FORTE, .FORTE, -25⟩
               hedge_action := none
               priority := OVERRIDE_PRIORITY .ARMADILHA_PREMIUM }
      else none

def check_logistica (logistics_flag_active : Bool) : Option Override :=
  if logistics_flag_active then
    some { type := .LOGISTICA
           physical_action := some ⟨.REDUZIR_FORTE, .FORTE, -30⟩
           hedge_action := none
           priority := OVERRIDE_PRIORITY .LOGISTICA }
  else none

def check_chicago_especulativo (is_speculative_spike : Bool)
    (narrativa_confirmada : Bool := false) : Option Override :=
  if is_speculative_spike ∧ ¬narrativa_confirmada then
    some { type := .CHICAGO_ESPECULATIVO
           physical_action := some ⟨.MANTER, .MODERADA, 0⟩
           hedge_action := some ⟨.AUMENTAR_FORTE, .FORTE, 20⟩
           priority := OVERRIDE_PRIORITY .CHICAGO_ESPECULATIVO }
  else none

def check_competitividade_critica (spread_adjusted : ℚ) : Option Override :=
  if spread_adjusted > CRITICAL_SPREAD_THRESHOLD then
    some { type := .COMPETITIVIDADE_CRITICA
           physical_action := some ⟨.REDUZIR, .MODERADA, -15⟩
           hedge_action := none
           priority := OVERRIDE_PRIORITY .COMPETITIVIDADE_CRITICA }
  else none

/-- Comparison used by `active.sort(key=lambda o: o.priority)`. -/
def ovLE (a b : Override) : Prop :=
  a.priority ≤ b.priority

instance : DecidableRel ovLE :=
  fun a b => inferInstanceAs (Decidable (a.priority ≤ b.priority))

instance : IsTotal Override ovLE :=
  ⟨fun a b => Nat.le_total a.priority b.priority⟩

instance : IsTrans Override ovLE :=
  ⟨fun _ _ _ hab hbc => Nat.le_trans hab hbc⟩

/-- The candidate list built by `evaluate_overrides` before the in-place
stable sort. -/
def override_candidates (var_semanal_lineup : Option ℚ)
    (percentil_premium spread_adjusted : ℚ)
    (logistics_flag_active is_speculative_spike narrativa_confirmada : Bool) :
    List Override :=
  (check_logistica logistics_flag_active).toList
    ++ (check_queda_conjunta var_semanal_lineup percentil_premium).toList
    ++ (check_armadilha_premio var_semanal_lineup percentil_premium).toList
    ++ (check_competitividade_critica spread_adjusted).toList
    ++ (check_chicago_especulativo is_speculative_spike narrativa_confirmada).toList

def evaluate_overrides (var_semanal_lineup : Option ℚ)
    (percentil_premium spread_adjusted : ℚ)
    (logistics_flag_active is_speculative_spike narrativa_confirmada : Bool)
    (original_physical : PhysicalResult) (original_hedge : HedgeResult) :
    OverrideEvaluation :=
  let active := List.insertionSort ovLE
    (override_candidates var_semanal_lineup percentil_premium spread_adjusted
      logistics_flag_active is_speculative_spike narrativa_confirmada)
  let dominant := active.head?
  let final_physical :=
    match dominant with
    | none => original_physical
    | some d => d.physical_action.getD original_physical
  let final_hedge :=
    match dominant with
    | none => original_hedge
    | some d => d.hedge_action.getD original_hedge
  { active_overrides := active
    dominant_override := dominant
    original_physical := original_physical
    original_hedge := original_hedge
    final_physical := final_physical
    final_hedge := final_hedge }

/- ### book.py -/

structure BookState where
  exposicao_fisica_pct : ℚ
  limite_long_pct : ℚ
  limite_short_pct : ℚ
  hedge_atual_pct : ℚ
  hedge_meta_pct : ℚ
deriving DecidableEq, Repr

def BookState.exposicao_disponivel_long (b : BookState) : ℚ :=
  max 0 (b.limite_long_pct - b.exposicao_fisica_pct)

def BookState.exposicao_disponivel_short (b : BookState) : ℚ :=
  max 0 (b.exposicao_fisica_pct - b.limite_short_pct)

def BookState.is_at_long_limit (b : BookState) : Bool :=
  b.exposicao_fisica_pct ≥ b.limite_long_pct

def BookState.is_at_short_limit (b : BookState) : Bool :=
  b.exposicao_fisica_pct ≤ b.limite_short_pct

def BookState.is_overhedged (b : BookState) : Bool :=
  b.hedge_atual_pct ≥ b.hedge_meta_pct + BOOK_HEDGE_TOLERANCE_PP

/-- `book.ModulatedResult`, minus the `modulation_reason` string. -/
structure ModulatedResult where
  physical : PhysicalResult
  hedge : HedgeResult
  physical_was_modulated : Bool
  hedge_was_modulated : Bool
deriving DecidableEq, Repr

def modulate_by_book (physical : PhysicalResult) (hedge : HedgeResult)
    (book : BookState) : ModulatedResult :=
  let step1 : PhysicalResult × Bool :=
    if (physical.recommendation = .AUMENTAR ∨ physical.recommendation = .AUMENTAR_FORTE)
        ∧ book.is_at_long_limit then
      (⟨.MANTER, .NEUTRA, 0⟩, true)
    else (physical, false)
  let step2 : PhysicalResult × Bool :=
    if (physical.recommendation = .REDUZIR ∨ physical.recommendation = .REDUZIR_FORTE)
        ∧ book.is_at_short_limit then
      (⟨.MANTER, .NEUTRA, 0⟩, true)
    else step1
  let hstep : HedgeResult × Bool :=
    if (hedge.recommendation = .AUMENTAR ∨ hedge.recommendation = .AUMENTAR_FORTE)
        ∧ book.is_overhedged then
      (⟨.MANTER, .NEUTRA, 0⟩, true)
    else (hedge, false)
  { physical := step2.1
    hedge := hstep.1
    physical_was_modulated := step2.2
    hedge_was_modulated := hstep.2 }

def calculate_effective_sizing (sizing_pct : ℚ) (book : BookState) : ℚ :=
  if sizing_pct > 0 then min sizing_pct book.exposicao_disponivel_long
  else if sizing_pct < 0 then max sizing_pct (-book.exposicao_disponivel_short)
  else 0

/- ### engine.py -/

structure MarketInputs where
  month : ℕ
  var_semanal_lineup : Option ℚ
  percentil_premium : ℚ
  spread_adjusted : ℚ
  z_pace : Option ℚ
  var_cambio_5d : Option ℚ
  chicago_percentile : ℚ
  chicago_is_spike : Bool
  logistics_flag_active : Bool
  narrativa_confirmada : Bool := false
deriving DecidableEq, Repr

/-- The `recomendacao_fisica` entry of the report (a dict in the source). -/
structure RecomendacaoFisica where
  acao : PhysicalRecommendation
  intensidade : Intensity
  sizing_pct : ℚ
deriving DecidableEq, Repr

/-- The `recomendacao_hedge` entry of the report (a dict in the source). -/
structure RecomendacaoHedge where
  acao : HedgeRecommendation
  intensidade : Intensity
  delta_pp : ℚ
deriving DecidableEq, Repr

/-- One `{"score": ..., <raw input>: ...}` entry of `componentes`. -/
structure ComponenteEntry where
  score : ℚ
  raw : ℚ
deriving DecidableEq, Repr

structure Componentes where
  lineup : ComponenteEntry
  premio : ComponenteEntry
  competitividade : ComponenteEntry
  demanda : ComponenteEntry
  cambio : ComponenteEntry
deriving DecidableEq, Repr

/-- `engine.DecisionReport`, minus the `modulacao_razao` and `justificativa`
strings. -/
structure DecisionReport where
  data_referencia : ℕ
  score_fisico : ℚ
  classificacao : PhysicalClassification
  recomendacao_fisica : RecomendacaoFisica
  recomendacao_hedge : RecomendacaoHedge
  componentes : Componentes
  overrides_ativos : List OverrideType
  override_dominante : Option OverrideType
  modulacao_aplicada : Bool
deriving DecidableEq, Repr

def default_book : BookState :=
  { exposicao_fisica_pct := 0
    limite_long_pct := DEFAULT_LIMITE_LONG_PCT
    limite_short_pct := DEFAULT_LIMITE_SHORT_PCT
    hedge_atual_pct := 0
    hedge_meta_pct := DEFAULT_HEDGE_META_PCT }

def run_decision_engine (inputs : MarketInputs)
    (book? : Option BookState := none) : DecisionReport :=
  let book := book?.getD default_book
  let scoring := compute_scoring inputs.month inputs.var_semanal_lineup
    inputs.percentil_premium inputs.spread_adjusted inputs.z_pace
    inputs.var_cambio_5d inputs.chicago_percentile inputs.chicago_is_spike
  let override_eval := evaluate_overrides inputs.var_semanal_lineup
    inputs.percentil_premium inputs.spread_adjusted inputs.logistics_flag_active
    inputs.chicago_is_spike inputs.narrativa_confirmada
    scoring.physical scoring.hedge
  let modulated := modulate_by_book override_eval.final_physical
    override_eval.final_hedge book
  let effective_sizing := calculate_effective_sizing
    modulated.physical.sizing_pct book
  { data_referencia := inputs.month
    score_fisico := scoring.score_fisico
    classificacao := scoring.classification
    recomendacao_fisica :=
      { acao := modulated.physical.recommendation
        intensidade := modulated.physical.intensity
        sizing_pct := py_round effective_sizing 1 }
    recomendacao_hedge :=
      { acao := modulated.hedge.recommendation
        intensidade := modulated.hedge.intensity
        delta_pp := py_round modulated.hedge.delta_pp 1 }
    componentes :=
      { lineup := ⟨py_round scoring.components.lineup 1,
          inputs.var_semanal_lineup.getD 0⟩
        premio := ⟨py_round scoring.components.premium 1,
          inputs.percentil_premium⟩
        competitividade := ⟨py_round scoring.components.competitiveness 1,
          inputs.spread_adjusted⟩
        demanda := ⟨py_round scoring.components.demand 1, inputs.z_pace.getD 0⟩
        cambio := ⟨py_round scoring.components.cambio 1,
          inputs.var_cambio_5d.getD 0⟩ }
    overrides_ativos := override_eval.active_overrides.map (·.type)
    override_dominante := override_eval.dominant_override.map (·.type)
    modulacao_aplicada :=
      modulated.physical_was_modulated || modulated.hedge_was_modulated }

/-- The five override values the check functions can produce. -/
def ov_logistica : Override :=
  { type := .LOGISTICA
    physical_action := some ⟨.REDUZIR_FORTE, .FORTE, -30⟩
    hedge_action := none
    priority := OVERRIDE_PRIORITY .LOGISTICA }

def ov_queda_conjunta : Override :=
  { type := .QUEDA_CONJUNTA
    physical_action := some ⟨.REDUZIR, .FORTE, -20⟩
    hedge_action := none
    priority := OVERRIDE_PRIORITY .QUEDA_CONJUNTA }

def ov_armadilha_premio : Override :=
  { type := .ARMADILHA_PREMIUM
    physical_action := some ⟨.REDUZIR_FORTE, .FORTE, -25⟩
    hedge_action := none
    priority := OVERRIDE_PRIORITY .ARMADILHA_PREMIUM }

def ov_competitividade_critica : Override :=
  { type := .COMPETITIVIDADE_CRITICA
    physical_action := some ⟨.REDUZIR, .MODERADA, -15⟩
    hedge_action := none
    priority := OVERRIDE_PRIORITY .COMPETITIVIDADE_CRITICA }

def ov_chicago_especulativo : Override :=
  { type := .CHICAGO_ESPECULATIVO
    physical_action := some ⟨.MANTER, .MODERADA, 0⟩
    hedge_action := some ⟨.AUMENTAR_FORTE, .FORTE, 20⟩
    priority := OVERRIDE_PRIORITY .CHICAGO_ESPECULATIVO }

/-- Sign coherence between a physical recommendation tag and its sizing. -/
def PhysSignOK (p : PhysicalResult) : Prop :=
  ((p.recommendation = .AUMENTAR ∨ p.recommendation = .AUMENTAR_FORTE)
    → 0 < p.sizing_pct)
  ∧ ((p.recommendation = .REDUZIR ∨ p.recommendation = .REDUZIR_FORTE)
    → p.sizing_pct < 0)
  ∧ (p.recommendation = .MANTER → p.sizing_pct = 0)

/-- The five hedge-result values that can ever flow through the engine. -/
def hedgeResultSet : List HedgeResult :=
  [⟨.AUMENTAR_FORTE, .FORTE, 20⟩, ⟨.AUMENTAR, .MODERADA, 10⟩,
   ⟨.MANTER, .NEUTRA, 0⟩, ⟨.REDUZIR, .MODERADA, -10⟩,
   ⟨.REDUZIR_FORTE, .FORTE, -20⟩]

/- ### Helper lemmas about the embedding -/

lemma roundHalfEven_nonneg {y : ℚ} (hy : 0 ≤ y) : 0 ≤ roundHalfEven y := by
  unfold roundHalfEven
  have hf : (0 : ℤ) ≤ ⌊y⌋ := Int.floor_nonneg.mpr hy
  split_ifs <;> omega

lemma roundHalfEven_nonpos {y : ℚ} (hy : y ≤ 0) : roundHalfEven y ≤ 0 := by
  unfold roundHalfEven
  have hf : ⌊y⌋ ≤ 0 := by
    have := Int.floor_le_floor (α := ℚ) hy
    simpa using this
  have hfl : (⌊y⌋ : ℚ) ≤ y := Int.floor_le y
  split_ifs with h1 h2 h3
  · exact hf
  · have hq : (⌊y⌋ : ℚ) < -(1/2) := by linarith
    have hq0 : (⌊y⌋ : ℚ) < 0 := lt_trans hq (by norm_num)
    have : ⌊y⌋ < 0 := by exact_mod_cast hq0
    omega
  · exact hf
  · have hne : ⌊y⌋ ≠ 0 := by
      intro h0
      rw [h0] at h1
      push_cast at h1
      linarith
    omega

lemma py_round_nonneg {x : ℚ} (n : ℕ) (hx : 0 ≤ x) : 0 ≤ py_round x n := by
  unfold py_round
  have h1 : (0 : ℚ) ≤ x * 10 ^ n := by positivity
  have h2 := roundHalfEven_nonneg h1
  have h3 : (0 : ℚ) ≤ (roundHalfEven (x * 10 ^ n) : ℚ) := by exact_mod_cast h2
  positivity

lemma py_round_nonpos {x : ℚ} (n : ℕ) (hx : x ≤ 0) : py_round x n ≤ 0 := by
  unfold py_round
  have hpow : (0 : ℚ) ≤ 10 ^ n := by positivity
  have h1 : x * 10 ^ n ≤ 0 := mul_nonpos_of_nonpos_of_nonneg hx hpow
  have h2 := roundHalfEven_nonpos h1
  have h3 : (roundHalfEven (x * 10 ^ n) : ℚ) ≤ 0 := by exact_mod_cast h2
  exact div_nonpos_of_nonpos_of_nonneg h3 hpow

lemma mem_check_logistica {o : Override} {fl : Bool}
    (h : o ∈ (check_logistica fl).toList) : o = ov_logistica := by
  by_cases hc : fl = true <;> simp [check_logistica, hc] at h
  exact h

lemma mem_check_queda {o : Override} {var : Option ℚ} {p : ℚ}
    (h : o ∈ (check_queda_conjunta var p).toList) : o = ov_queda_conjunta := by
  rcases var with _ | v
  · simp [check_queda_conjunta] at h
  · by_cases hc : v < LINEUP_DROP_OVERRIDE_THRESHOLD ∧ p < PREMIUM_THRESHOLD_BAIXO <;>
      simp [check_queda_conjunta, hc] at h
    exact h

lemma mem_check_armadilha {o : Override} {var : Option ℚ} {p : ℚ}
    (h : o ∈ (check_armadilha_premio var p).toList) : o = ov_armadilha_premio := by
  rcases var with _ | v
  · simp [check_armadilha_premio] at h
  · by_cases hc : v < LINEUP_DROP_OVERRIDE_THRESHOLD ∧ p > PREMIUM_THRESHOLD_ALTO <;>
      simp [check_armadilha_premio, hc] at h
    exact h

lemma mem_check_competitividade {o : Override} {s : ℚ}
    (h : o ∈ (check_competitividade_critica s).toList) :
    o = ov_competitividade_critica := by
  by_cases hc : s > CRITICAL_SPREAD_THRESHOLD <;>
    simp [check_competitividade_critica, hc] at h
  exact h

lemma mem_check_chicago {o : Override} {sp na : Bool}
    (h : o ∈ (check_chicago_especulativo sp na).toList) :
    o = ov_chicago_especulativo := by
  by_cases hc : sp = true ∧ na = false <;>
    simp [check_chicago_especulativo, hc] at h
  exact h

lemma mem_override_candidates {o : Override} {var : Option ℚ} {p s : ℚ}
    {fl sp na : Bool}
    (h : o ∈ override_candidates var p s fl sp na) :
    o = ov_logistica ∨ o = ov_queda_conjunta ∨ o = ov_armadilha_premio
      ∨ o = ov_competitividade_critica ∨ o = ov_chicago_especulativo := by
  unfold override_candidates at h
  simp only [List.mem_append] at h
  rcases h with (((h | h) | h) | h) | h
  · exact Or.inl (mem_check_logistica h)
  · exact Or.inr (Or.inl (mem_check_queda h))
  · exact Or.inr (Or.inr (Or.inl (mem_check_armadilha h)))
  · exact Or.inr (Or.inr (Or.inr (Or.inl (mem_check_competitividade h))))
  · exact Or.inr (Or.inr (Or.inr (Or.inr (mem_check_chicago h))))

lemma head?_mem {l : List Override} {d : Override} (h : l.head? = some d) :
    d ∈ l := by
  cases l with
  | nil => simp at h
  | cons a t =>
      simp only [List.head?_cons, Option.some.injEq] at h
      subst h
      exact List.mem_cons_self a t

lemma sorted_head_min {l : List Override} (hs : List.Sorted ovLE l)
    {d : Override} (hd : l.head? = some d) :
    ∀ o ∈ l, d.priority ≤ o.priority := by
  cases l with
  | nil => simp at hd
  | cons a t =>
      simp only [List.head?_cons, Option.some.injEq] at hd
      subst hd
      intro o ho
      rcases List.mem_cons.mp ho with rfl | ho
      · exact le_refl _
      · exact (List.sorted_cons.mp hs).1 o ho

/- ### Claim theorems -/

/-- Claim C1: for every input to `evaluate_overrides`, the active set is
ordered by ascending priority; if it is non-empty the dominant override is
the (unique) triggered override with the numerically lowest priority value;
and the final physical and hedge recommendations equal the dominant
override's replacements where it supplies them, with non-dominant triggered
overrides having no effect on them. -/
theorem evaluate_overrides_dominant_spec
    (var : Option ℚ) (p s : ℚ) (fl sp na : Bool)
    (origP : PhysicalResult) (origH : HedgeResult)
    (ev : OverrideEvaluation)
    (hev : ev = evaluate_overrides var p s fl sp na origP origH) :
    List.Sorted ovLE ev.active_overrides
    ∧ (ev.dominant_override = none ↔ ev.active_overrides = [])
    ∧ (∀ d, ev.dominant_override = some d →
        d ∈ ev.active_overrides
        ∧ (∀ o ∈ ev.active_overrides, d.priority ≤ o.priority)
        ∧ (∀ o ∈ ev.active_overrides, o ≠ d → d.priority < o.priority))
    ∧ ev.final_physical = (match ev.dominant_override with
        | none => origP
        | some d => d.physical_action.getD origP)
    ∧ ev.final_hedge = (match ev.dominant_override with
        | none => origH
        | some d => d.hedge_action.getD origH) := by
  subst hev
  refine ⟨?_, ?_, ?_, ?_, ?_⟩
  · show List.Sorted ovLE
      (List.insertionSort ovLE (override_candidates var p s fl sp na))
    exact List.sorted_insertionSort ovLE _
  · show (List.insertionSort ovLE (override_candidates var p s fl sp na)).head?
        = none
      ↔ List.insertionSort ovLE (override_candidates var p s fl sp na) = []
    exact List.head?_eq_none_iff
  · intro d hd
    have hd' : (List.insertionSort ovLE
        (override_candidates var p s fl sp na)).head? = some d := hd
    have hsorted := List.sorted_insertionSort ovLE
      (override_candidates var p s fl sp na)
    have hmem := head?_mem hd'
    refine ⟨hmem, sorted_head_min hsorted hd', ?_⟩
    intro o ho hne
    have ho' : o ∈ List.insertionSort ovLE
        (override_candidates var p s fl sp na) := ho
    have hle := sorted_head_min hsorted hd' o ho'
    have hdc : d ∈ override_candidates var p s fl sp na :=
      (List.mem_insertionSort ovLE).mp hmem
    have hoc : o ∈ override_candidates var p s fl sp na :=
      (List.mem_insertionSort ovLE).mp ho'
    rcases mem_override_candidates hdc with rfl | rfl | rfl | rfl | rfl <;>
      rcases mem_override_candidates hoc with rfl | rfl | rfl | rfl | rfl <;>
      first
        | exact absurd rfl hne
        | decide
        | exact absurd hle (by decide)
  · rfl
  · rfl

theorem evaluate_overrides_dominant_spec_witness :
    ov_logistica ∈ (evaluate_overrides none 0 0 true false false
      ⟨.MANTER, .NEUTRA, 0⟩ ⟨.MANTER, .NEUTRA, 0⟩).active_overrides
    ∧ ∀ o ∈ (evaluate_overrides none 0 0 true false false
        ⟨.MANTER, .NEUTRA, 0⟩ ⟨.MANTER, .NEUTRA, 0⟩).active_overrides,
      ov_logistica.priority ≤ o.priority := by
  have h := evaluate_overrides_dominant_spec none 0 0 true false false
    ⟨.MANTER, .NEUTRA, 0⟩ ⟨.MANTER, .NEUTRA, 0⟩ _ rfl
  obtain ⟨-, -, h3, -, -⟩ := h
  have hd := h3 ov_logistica (by decide)
  exact ⟨hd.1, hd.2.1⟩

/-- Claim C7: if the dominant override supplies no hedge replacement the final
hedge recommendation is exactly the original one, symmetrically for physical,
and with no dominant override both pass through unchanged. -/
theorem evaluate_overrides_frame_passthrough
    (var : Option ℚ) (p s : ℚ) (fl sp na : Bool)
    (origP : PhysicalResult) (origH : HedgeResult)
    (ev : OverrideEvaluation)
    (hev : ev = evaluate_overrides var p s fl sp na origP origH) :
    (∀ d, ev.dominant_override = some d →
      (d.hedge_action = none → ev.final_hedge = ev.original_hedge)
      ∧ (d.physical_action = none → ev.final_physical = ev.original_physical))
    ∧ (ev.dominant_override = none →
        ev.final_physical = ev.original_physical
        ∧ ev.final_hedge = ev.original_hedge) := by
  subst hev
  constructor
  · intro d hd
    have hd' : (List.insertionSort ovLE
        (override_candidates var p s fl sp na)).head? = some d := hd
    constructor
    · intro hna
      show (match (List.insertionSort ovLE
            (override_candidates var p s fl sp na)).head? with
          | none => origH
          | some dd => dd.hedge_action.getD origH) = origH
      rw [hd']
      show d.hedge_action.getD origH = origH
      rw [hna]
      rfl
    · intro hna
      show (match (List.insertionSort ovLE
            (override_candidates var p s fl sp na)).head? with
          | none => origP
          | some dd => dd.physical_action.getD origP) = origP
      rw [hd']
      show d.physical_action.getD origP = origP
      rw [hna]
      rfl
  · intro hnone
    have hd' : (List.insertionSort ovLE
        (override_candidates var p s fl sp na)).head? = none := hnone
    constructor
    · show (match (List.insertionSort ovLE
            (override_candidates var p s fl sp na)).head? with
          | none => origP
          | some dd => dd.physical_action.getD origP) = origP
      rw [hd']
    · show (match (List.insertionSort ovLE
            (override_candidates var p s fl sp na)).head? with
          | none => origH
          | some dd => dd.hedge_action.getD origH) = origH
      rw [hd']

theorem evaluate_overrides_frame_passthrough_witness :
    (evaluate_overrides none 0 0 true false false
      ⟨.MANTER, .NEUTRA, 0⟩ ⟨.AUMENTAR, .MODERADA, 10⟩).final_hedge
      = (evaluate_overrides none 0 0 true false false
        ⟨.MANTER, .NEUTRA, 0⟩ ⟨.AUMENTAR, .MODERADA, 10⟩).original_hedge := by
  have h := evaluate_overrides_frame_passthrough none 0 0 true false false
    ⟨.MANTER, .NEUTRA, 0⟩ ⟨.AUMENTAR, .MODERADA, 10⟩ _ rfl
  exact ((h.1 ov_logistica (by decide)).1) (by decide)

/-- Claim C9: when the weekly line-up change input is `None`, neither the
joint-drop (`queda_conjunta`) nor the premium-trap (`armadilha_premio`)
override triggers, whatever the premium percentile is; the active set of
`evaluate_overrides` contains neither. -/
theorem evaluate_overrides_requires_lineup_var
    (p s : ℚ) (fl sp na : Bool)
    (origP : PhysicalResult) (origH : HedgeResult) :
    check_queda_conjunta none p = none
    ∧ check_armadilha_premio none p = none
    ∧ ∀ o ∈ (evaluate_overrides none p s fl sp na origP origH).active_overrides,
        o.type ≠ OverrideType.QUEDA_CONJUNTA
        ∧ o.type ≠ OverrideType.ARMADILHA_PREMIUM := by
  refine ⟨rfl, rfl, ?_⟩
  intro o ho
  have ho' : o ∈ List.insertionSort ovLE
      (override_candidates none p s fl sp na) := ho
  have hoc : o ∈ override_candidates none p s fl sp na :=
    (List.mem_insertionSort ovLE).mp ho'
  unfold override_candidates at hoc
  simp only [List.mem_append] at hoc
  rcases hoc with (((h | h) | h) | h) | h
  · rw [mem_check_logistica h]
    exact ⟨by decide, by decide⟩
  · rw [check_queda_conjunta] at h
    simp at h
  · rw [check_armadilha_premio] at h
    simp at h
  · rw [mem_check_competitividade h]
    exact ⟨by decide, by decide⟩
  · rw [mem_check_chicago h]
    exact ⟨by decide, by decide⟩

theorem evaluate_overrides_requires_lineup_var_witness :
    ov_logistica ∈ (evaluate_overrides none 0 0 true false false
      ⟨.MANTER, .NEUTRA, 0⟩ ⟨.MANTER, .NEUTRA, 0⟩).active_overrides →
      ov_logistica.type ≠ OverrideType.QUEDA_CONJUNTA
      ∧ ov_logistica.type ≠ OverrideType.ARMADILHA_PREMIUM := by
  intro hmem
  exact (evaluate_overrides_requires_lineup_var 0 0 true false false
    ⟨.MANTER, .NEUTRA, 0⟩ ⟨.MANTER, .NEUTRA, 0⟩).2.2 ov_logistica hmem

/-- Claim C2 counterexample: at an aggregate score of exactly 80 the baseline
physical recommendation carries the strong intensity tag although neither
`80 > 80` nor `80 < 20` holds, refuting the claimed strict-inequality bands
for the recommendation's intensity. -/
theorem physical_intensity_boundary_counterexample :
    (compute_physical_recommendation 80).intensity = Intensity.FORTE
    ∧ ¬((80 : ℚ) > 80 ∨ (80 : ℚ) < 20) := by decide

/-- Claim C2 (amended): the intensity tag of the baseline physical
recommendation is strong exactly when the score is ≥ 80 or ≤ 20 (the extreme
bands force strong intensity inclusively), moderate exactly when
(score > 65 or score < 35) and not strong, and neutral otherwise. -/
theorem physical_intensity_bands_amended (s : ℚ) :
    ((compute_physical_recommendation s).intensity = Intensity.FORTE
      ↔ (s ≥ 80 ∨ s ≤ 20))
    ∧ ((compute_physical_recommendation s).intensity = Intensity.MODERADA
      ↔ ((s > 65 ∨ s < 35) ∧ ¬(s ≥ 80 ∨ s ≤ 20)))
    ∧ ((compute_physical_recommendation s).intensity = Intensity.NEUTRA
      ↔ (¬(s ≥ 80 ∨ s ≤ 20) ∧ ¬((s > 65 ∨ s < 35) ∧ ¬(s ≥ 80 ∨ s ≤ 20)))) := by
  have hI : (compute_physical_recommendation s).intensity
      = if s ≥ 80 ∨ s ≤ 20 then Intensity.FORTE
        else if s > 65 ∨ s < 35 then Intensity.MODERADA
        else Intensity.NEUTRA := by
    simp only [compute_physical_recommendation, determine_intensity,
      SCORING_FISICO_MUITO_FORTE, SCORING_FISICO_FORTE,
      SCORING_FISICO_FRACO, SCORING_FISICO_MUITO_FRACO]
    split_ifs <;> try rfl
    all_goals exfalso
    all_goals try casesm* _ ∨ _
    all_goals push_neg at *
    all_goals linarith
  rw [hI]
  split_ifs with hA hB <;> simp_all

/-- Claim C3: the baseline hedge recommendation follows the speculative-spike
exception (spike flag set and percentile ≥ 50 forces a moderate +10pp
increase) and otherwise the band table ≥80 → strong increase +20pp,
≥65 → increase +10pp, ≤20 → strong decrease −20pp, ≤35 → decrease −10pp,
else hold 0pp. -/
theorem hedge_band_table_spec (p : ℚ) (spike : Bool) :
    (spike = true → p ≥ 50 →
      compute_hedge_recommendation p spike = ⟨.AUMENTAR, .MODERADA, 10⟩)
    ∧ (¬(spike = true ∧ p ≥ 50) →
        (p ≥ 80 →
          compute_hedge_recommendation p spike = ⟨.AUMENTAR_FORTE, .FORTE, 20⟩)
        ∧ (¬p ≥ 80 → p ≥ 65 →
          compute_hedge_recommendation p spike = ⟨.AUMENTAR, .MODERADA, 10⟩)
        ∧ (p ≤ 20 →
          compute_hedge_recommendation p spike = ⟨.REDUZIR_FORTE, .FORTE, -20⟩)
        ∧ (¬p ≤ 20 → p ≤ 35 →
          compute_hedge_recommendation p spike = ⟨.REDUZIR, .MODERADA, -10⟩)
        ∧ (¬p ≥ 80 → ¬p ≥ 65 → ¬p ≤ 20 → ¬p ≤ 35 →
          compute_hedge_recommendation p spike = ⟨.MANTER, .NEUTRA, 0⟩)) := by
  unfold compute_hedge_recommendation HEDGE_PERCENTIL_MUITO_ALTO
    HEDGE_PERCENTIL_ALTO HEDGE_PERCENTIL_BAIXO HEDGE_PERCENTIL_MUITO_BAIXO
  constructor
  · intro hs h50
    split_ifs with h1 h2 h3 h4 h5 <;>
      first | rfl | exact absurd ⟨hs, h50⟩ h1
  · intro hn
    split_ifs with h1 h2 h3 h4 h5 <;>
      refine ⟨?_, ?_, ?_, ?_, ?_⟩ <;>
      intros <;>
      first | rfl | (exfalso; first | tauto | linarith)

theorem hedge_band_table_spec_witness :
    compute_hedge_recommendation 60 true = ⟨.AUMENTAR, .MODERADA, 10⟩
    ∧ compute_hedge_recommendation 90 false = ⟨.AUMENTAR_FORTE, .FORTE, 20⟩
    ∧ compute_hedge_recommendation 10 false = ⟨.REDUZIR_FORTE, .FORTE, -20⟩
    ∧ compute_hedge_recommendation 30 false = ⟨.REDUZIR, .MODERADA, -10⟩
    ∧ compute_hedge_recommendation 50 false = ⟨.MANTER, .NEUTRA, 0⟩ := by
  refine ⟨?_, ?_, ?_, ?_, ?_⟩
  · exact (hedge_band_table_spec 60 true).1 rfl (by norm_num)
  · exact ((hedge_band_table_spec 90 false).2 (by simp)).1 (by norm_num)
  · exact ((hedge_band_table_spec 10 false).2 (by simp)).2.2.1 (by norm_num)
  · exact (((hedge_band_table_spec 30 false).2 (by simp)).2.2.2.1 (by norm_num))
      (by norm_num)
  · exact (((hedge_band_table_spec 50 false).2 (by simp)).2.2.2.2 (by norm_num)
      (by norm_num) (by norm_num) (by norm_num))

/-- Claim C10: the Chicago reference-price percentile returns the neutral
value 50 on an empty rolling history without raising, while the premium
normalizer's percentile fails with an error on an empty sample. -/
theorem chicago_percentile_empty_history_neutral (value : ℚ) :
    auxiliaries.calculate_percentile value [] = 50
    ∧ premium.calculate_percentile value []
        = Except.error "Histórico vazio para cálculo de percentil" := by
  constructor <;> rfl

lemma calculate_percentile_example :
    premium.calculate_percentile 2 [0, 1, 2] = Except.ok ((8333 : ℚ)/100) := by
  rw [premium.calculate_percentile, if_neg (by simp)]
  norm_num [py_round, roundHalfEven, List.filter]

/-- Claim C6 counterexample: on the sample `[0, 1, 2]` with value `2` the
returned percentile is the two-decimal rounding `83.33`, not the exact
rank-based value `(2 + 0.5·1)/3·100 = 250/3`, refuting the claim that the
percentile equals the unrounded formula. -/
theorem normalize_premium_rounding_counterexample :
    (premium.normalize_premium 1 2 [0, 1, 2]).map (fun r => r.percentile)
      = Except.ok ((8333 : ℚ)/100)
    ∧ ((8333 : ℚ)/100) ≠ ((2 : ℚ) + 0.5 * 1) / 3 * 100 := by
  constructor
  · simp [premium.normalize_premium, calculate_percentile_example, Except.map]
  · norm_num

/-- Claim C6 (amended): `normalize_premium` fails if and only if the
historical sample is empty; for every non-empty sample (including those
below the 30-sample warning threshold) it returns a result whose percentile
is the rank-based tie-splitting percentile rounded to two decimal digits. -/
theorem normalize_premium_amended (month : ℕ) (x : ℚ) (historical : List ℚ) :
    ((∃ e, premium.normalize_premium month x historical = .error e)
      ↔ historical = [])
    ∧ (∀ r, premium.normalize_premium month x historical = .ok r →
        r.percentile = py_round
          ((((historical.filter (fun h => h < x)).length : ℚ)
            + 0.5 * ((historical.filter (fun h => h = x)).length : ℚ))
            / historical.length * 100) 2) := by
  by_cases hemp : historical = []
  · subst hemp
    constructor
    · simp [premium.normalize_premium, premium.calculate_percentile]
    · intro r hr
      simp [premium.normalize_premium, premium.calculate_percentile] at hr
  · constructor
    · simp [premium.normalize_premium, premium.calculate_percentile, hemp]
    · intro r hr
      simp [premium.normalize_premium, premium.calculate_percentile, hemp] at hr
      rw [← hr]

theorem normalize_premium_amended_witness :
    ({ month := 1, premium_raw := 2, regime := Regime.entressafra,
       percentile := (8333 : ℚ)/100,
       classification := PremiumClassification.MUITO_ALTO,
       historical_count := 3 } : PremiumResult).percentile
      = py_round ((((([0, 1, 2] : List ℚ).filter (fun h => h < 2)).length : ℚ)
          + 0.5 * ((([0, 1, 2] : List ℚ).filter (fun h => h = 2)).length : ℚ))
          / ([0, 1, 2] : List ℚ).length * 100) 2 := by
  refine (normalize_premium_amended 1 2 [0, 1, 2]).2 _ ?_
  simp [premium.normalize_premium, calculate_percentile_example, get_regime,
    SAFRA_MONTHS, premium.classify_premium]
  norm_num

/-- Claim C8: `modulate_by_book` is idempotent — re-applying it with the same
book to the physical and hedge recommendations it produced changes nothing
and reports no further modulation. -/
theorem modulate_by_book_idempotent (p : PhysicalResult) (h : HedgeResult)
    (b : BookState) :
    modulate_by_book (modulate_by_book p h b).physical
        (modulate_by_book p h b).hedge b
      = { physical := (modulate_by_book p h b).physical
          hedge := (modulate_by_book p h b).hedge
          physical_was_modulated := false
          hedge_was_modulated := false } := by
  rcases p with ⟨pr, pi, ps⟩
  rcases h with ⟨hr, hi, hd⟩
  cases pr <;> cases hr <;>
    by_cases hl : b.is_at_long_limit = true <;>
    by_cases hs : b.is_at_short_limit = true <;>
    by_cases ho : b.is_overhedged = true <;>
    simp [modulate_by_book, hl, hs, ho]

/-- Claim C4: effective sizing equals `min(s, max(0, long limit − exposure))`
for positive sizing, `max(s, −max(0, exposure − short limit))` for negative
sizing, and `0` at zero; and `run_decision_engine` applies this clamp (then
one-decimal rounding) to the post-modulation sizing, whether that sizing came
from the score or from an override. -/
theorem effective_sizing_clamp_spec (s : ℚ) (b : BookState)
    (inputs : MarketInputs) (book : BookState) :
    (s > 0 → calculate_effective_sizing s b
      = min s (max 0 (b.limite_long_pct - b.exposicao_fisica_pct)))
    ∧ (s < 0 → calculate_effective_sizing s b
      = max s (-(max 0 (b.exposicao_fisica_pct - b.limite_short_pct))))
    ∧ (s = 0 → calculate_effective_sizing s b = 0)
    ∧ (run_decision_engine inputs (some book)).recomendacao_fisica.sizing_pct
      = py_round (calculate_effective_sizing
          (modulate_by_book
            (evaluate_overrides inputs.var_semanal_lineup
              inputs.percentil_premium inputs.spread_adjusted
              inputs.logistics_flag_active inputs.chicago_is_spike
              inputs.narrativa_confirmada
              (compute_scoring inputs.month inputs.var_semanal_lineup
                inputs.percentil_premium inputs.spread_adjusted inputs.z_pace
                inputs.var_cambio_5d inputs.chicago_percentile
                inputs.chicago_is_spike).physical
              (compute_scoring inputs.month inputs.var_semanal_lineup
                inputs.percentil_premium inputs.spread_adjusted inputs.z_pace
                inputs.var_cambio_5d inputs.chicago_percentile
                inputs.chicago_is_spike).hedge).final_physical
            (evaluate_overrides inputs.var_semanal_lineup
              inputs.percentil_premium inputs.spread_adjusted
              inputs.logistics_flag_active inputs.chicago_is_spike
              inputs.narrativa_confirmada
              (compute_scoring inputs.month inputs.var_semanal_lineup
                inputs.percentil_premium inputs.spread_adjusted inputs.z_pace
                inputs.var_cambio_5d inputs.chicago_percentile
                inputs.chicago_is_spike).physical
              (compute_scoring inputs.month inputs.var_semanal_lineup
                inputs.percentil_premium inputs.spread_adjusted inputs.z_pace
                inputs.var_cambio_5d inputs.chicago_percentile
                inputs.chicago_is_spike).hedge).final_hedge book).physical.sizing_pct
          book) 1 := by
  refine ⟨?_, ?_, ?_, rfl⟩
  · intro h
    rw [calculate_effective_sizing, if_pos h]
    rfl
  · intro h
    rw [calculate_effective_sizing, if_neg (by linarith), if_pos h]
    rfl
  · intro h
    subst h
    rw [calculate_effective_sizing, if_neg (lt_irrefl 0), if_neg (lt_irrefl 0)]

theorem effective_sizing_clamp_spec_witness :
    calculate_effective_sizing 7 ⟨0, 80, -50, 0, 60⟩
      = min 7 (max 0 ((80 : ℚ) - 0))
    ∧ calculate_effective_sizing (-7) ⟨0, 80, -50, 0, 60⟩
      = max (-7) (-(max 0 ((0 : ℚ) - (-50))))
    ∧ calculate_effective_sizing 0 ⟨0, 80, -50, 0, 60⟩ = 0 := by
  refine ⟨?_, ?_, ?_⟩
  · exact (effective_sizing_clamp_spec 7 ⟨0, 80, -50, 0, 60⟩
      ⟨1, none, 50, 0, none, none, 50, false, false, false⟩
      ⟨0, 80, -50, 0, 60⟩).1 (by norm_num)
  · exact (effective_sizing_clamp_spec (-7) ⟨0, 80, -50, 0, 60⟩
      ⟨1, none, 50, 0, none, none, 50, false, false, false⟩
      ⟨0, 80, -50, 0, 60⟩).2.1 (by norm_num)
  · exact (effective_sizing_clamp_spec 0 ⟨0, 80, -50, 0, 60⟩
      ⟨1, none, 50, 0, none, none, 50, false, false, false⟩
      ⟨0, 80, -50, 0, 60⟩).2.2.1 rfl

lemma physSignOK_compute (s : ℚ) :
    PhysSignOK (compute_physical_recommendation s) := by
  unfold PhysSignOK compute_physical_recommendation
  split_ifs <;> norm_num

lemma compute_hedge_mem (p : ℚ) (sp : Bool) :
    compute_hedge_recommendation p sp ∈ hedgeResultSet := by
  unfold compute_hedge_recommendation hedgeResultSet
  split_ifs <;> simp

lemma final_physical_signOK (var : Option ℚ) (p s : ℚ) (fl sp na : Bool)
    (origP : PhysicalResult) (origH : HedgeResult) (h : PhysSignOK origP) :
    PhysSignOK (evaluate_overrides var p s fl sp na origP origH).final_physical := by
  show PhysSignOK (match (List.insertionSort ovLE
      (override_candidates var p s fl sp na)).head? with
    | none => origP
    | some d => d.physical_action.getD origP)
  cases hd : (List.insertionSort ovLE
      (override_candidates var p s fl sp na)).head? with
  | none => exact h
  | some d =>
      have hdc : d ∈ override_candidates var p s fl sp na :=
        (List.mem_insertionSort ovLE).mp (head?_mem hd)
      rcases mem_override_candidates hdc with rfl | rfl | rfl | rfl | rfl <;>
        norm_num [PhysSignOK, ov_logistica, ov_queda_conjunta,
          ov_armadilha_premio, ov_competitividade_critica,
          ov_chicago_especulativo] <;>
        decide

lemma final_hedge_mem (var : Option ℚ) (p s : ℚ) (fl sp na : Bool)
    (origP : PhysicalResult) (origH : HedgeResult) (h : origH ∈ hedgeResultSet) :
    (evaluate_overrides var p s fl sp na origP origH).final_hedge
      ∈ hedgeResultSet := by
  show (match (List.insertionSort ovLE
      (override_candidates var p s fl sp na)).head? with
    | none => origH
    | some d => d.hedge_action.getD origH) ∈ hedgeResultSet
  cases hd : (List.insertionSort ovLE
      (override_candidates var p s fl sp na)).head? with
  | none => exact h
  | some d =>
      have hdc : d ∈ override_candidates var p s fl sp na :=
        (List.mem_insertionSort ovLE).mp (head?_mem hd)
      rcases mem_override_candidates hdc with rfl | rfl | rfl | rfl | rfl <;>
        first
          | exact h
          | simp [hedgeResultSet, ov_chicago_especulativo]

lemma modulate_physical_cases (p : PhysicalResult) (h : HedgeResult)
    (b : BookState) :
    (modulate_by_book p h b).physical = ⟨.MANTER, .NEUTRA, 0⟩
    ∨ ((modulate_by_book p h b).physical = p
      ∧ ((p.recommendation = .AUMENTAR ∨ p.recommendation = .AUMENTAR_FORTE)
          → ¬b.is_at_long_limit = true)
      ∧ ((p.recommendation = .REDUZIR ∨ p.recommendation = .REDUZIR_FORTE)
          → ¬b.is_at_short_limit = true)) := by
  simp only [modulate_by_book]
  split_ifs with h1 h2
  · exact Or.inl rfl
  · exact Or.inl rfl
  · exact Or.inr ⟨rfl, fun hi hl => h2 ⟨hi, hl⟩, fun hr hs => h1 ⟨hr, hs⟩⟩

lemma modulate_hedge_cases (p : PhysicalResult) (h : HedgeResult)
    (b : BookState) :
    (modulate_by_book p h b).hedge = ⟨.MANTER, .NEUTRA, 0⟩
    ∨ (modulate_by_book p h b).hedge = h := by
  simp only [modulate_by_book]
  split_ifs <;> simp

lemma py_round_zero (n : ℕ) : py_round 0 n = 0 := by
  norm_num [py_round, roundHalfEven]

lemma modulated_sign_facts (var : Option ℚ) (p s : ℚ) (fl sp na : Bool)
    (origP : PhysicalResult) (origH : HedgeResult) (book : BookState)
    (md : ModulatedResult)
    (hmd : md = modulate_by_book
      (evaluate_overrides var p s fl sp na origP origH).final_physical
      (evaluate_overrides var p s fl sp na origP origH).final_hedge book)
    (hP : PhysSignOK origP) (hH : origH ∈ hedgeResultSet) :
    ((md.physical.recommendation = .AUMENTAR
        ∨ md.physical.recommendation = .AUMENTAR_FORTE)
      → 0 < calculate_effective_sizing md.physical.sizing_pct book)
    ∧ ((md.physical.recommendation = .REDUZIR
        ∨ md.physical.recommendation = .REDUZIR_FORTE)
      → calculate_effective_sizing md.physical.sizing_pct book < 0)
    ∧ (md.physical.recommendation = .MANTER
      → calculate_effective_sizing md.physical.sizing_pct book = 0)
    ∧ md.hedge ∈ hedgeResultSet := by
  subst hmd
  have hsign := final_physical_signOK var p s fl sp na origP origH hP
  have hpcases := modulate_physical_cases
    (evaluate_overrides var p s fl sp na origP origH).final_physical
    (evaluate_overrides var p s fl sp na origP origH).final_hedge book
  have hhcases := modulate_hedge_cases
    (evaluate_overrides var p s fl sp na origP origH).final_physical
    (evaluate_overrides var p s fl sp na origP origH).final_hedge book
  refine ⟨?_, ?_, ?_, ?_⟩
  · intro hup
    rcases hpcases with hm | ⟨heq, hlong, hshort⟩
    · rw [hm] at hup
      simp at hup
    · rw [heq] at hup ⊢
      have hpos := hsign.1 hup
      have hnl := hlong hup
      simp only [BookState.is_at_long_limit, decide_eq_true_eq] at hnl
      have hlt := lt_of_not_ge hnl
      rw [calculate_effective_sizing, if_pos hpos]
      refine lt_min hpos ?_
      rw [BookState.exposicao_disponivel_long]
      exact lt_max_of_lt_right (by linarith)
  · intro hdn
    rcases hpcases with hm | ⟨heq, hlong, hshort⟩
    · rw [hm] at hdn
      simp at hdn
    · rw [heq] at hdn ⊢
      have hneg := hsign.2.1 hdn
      have hns := hshort hdn
      simp only [BookState.is_at_short_limit, decide_eq_true_eq] at hns
      have hgt := lt_of_not_ge hns
      rw [calculate_effective_sizing, if_neg (by linarith), if_pos hneg]
      refine max_lt hneg ?_
      rw [BookState.exposicao_disponivel_short]
      have hpos2 : (0 : ℚ) < max 0 (book.exposicao_fisica_pct
          - book.limite_short_pct) := lt_max_of_lt_right (by linarith)
      linarith
  · intro hm
    rcases hpcases with hmm | ⟨heq, h1, h2⟩
    · rw [hmm]
      norm_num [calculate_effective_sizing]
    · rw [heq] at hm ⊢
      rw [hsign.2.2 hm]
      norm_num [calculate_effective_sizing]
  · rcases hhcases with hh | hh
    · rw [hh]
      simp [hedgeResultSet]
    · rw [hh]
      exact final_hedge_mem var p s fl sp na origP origH hH

/-- Claim C5 (amended): in every decision report the reported physical
sizing is the one-decimal rounding of an effective sizing whose strict sign
matches the physical action (so increase implies reported sizing ≥ 0 and
strictly positive pre-rounding, decrease symmetrically, hold implies exactly
0), and the reported hedge delta's sign matches the hedge action exactly,
with hold implying a zero delta. -/
theorem decision_report_sign_invariant_amended
    (inputs : MarketInputs) (book : BookState) (report : DecisionReport)
    (hrep : report = run_decision_engine inputs (some book)) :
    ∃ eff : ℚ,
      report.recomendacao_fisica.sizing_pct = py_round eff 1
      ∧ ((report.recomendacao_fisica.acao = .AUMENTAR
          ∨ report.recomendacao_fisica.acao = .AUMENTAR_FORTE)
          → 0 < eff ∧ 0 ≤ report.recomendacao_fisica.sizing_pct)
      ∧ ((report.recomendacao_fisica.acao = .REDUZIR
          ∨ report.recomendacao_fisica.acao = .REDUZIR_FORTE)
          → eff < 0 ∧ report.recomendacao_fisica.sizing_pct ≤ 0)
      ∧ (report.recomendacao_fisica.acao = .MANTER
          → report.recomendacao_fisica.sizing_pct = 0)
      ∧ ((report.recomendacao_hedge.acao = .AUMENTAR
          ∨ report.recomendacao_hedge.acao = .AUMENTAR_FORTE)
          → 0 < report.recomendacao_hedge.delta_pp)
      ∧ ((report.recomendacao_hedge.acao = .REDUZIR
          ∨ report.recomendacao_hedge.acao = .REDUZIR_FORTE)
          → report.recomendacao_hedge.delta_pp < 0)
      ∧ (report.recomendacao_hedge.acao = .MANTER
          → report.recomendacao_hedge.delta_pp = 0) := by
  subst hrep
  obtain ⟨hA, hB, hC, hD⟩ := modulated_sign_facts inputs.var_semanal_lineup
    inputs.percentil_premium inputs.spread_adjusted
    inputs.logistics_flag_active inputs.chicago_is_spike
    inputs.narrativa_confirmada
    (compute_scoring inputs.month inputs.var_semanal_lineup
        inputs.percentil_premium inputs.spread_adjusted inputs.z_pace
        inputs.var_cambio_5d inputs.chicago_percentile
        inputs.chicago_is_spike).physical
    (compute_scoring inputs.month inputs.var_semanal_lineup
        inputs.percentil_premium inputs.spread_adjusted inputs.z_pace
        inputs.var_cambio_5d inputs.chicago_percentile
        inputs.chicago_is_spike).hedge book
    (modulate_by_book
      (evaluate_overrides inputs.var_semanal_lineup
      inputs.percentil_premium inputs.spread_adjusted
      inputs.logistics_flag_active inputs.chicago_is_spike
      inputs.narrativa_confirmada
      (compute_scoring inputs.month inputs.var_semanal_lineup
        inputs.percentil_premium inputs.spread_adjusted inputs.z_pace
        inputs.var_cambio_5d inputs.chicago_percentile
        inputs.chicago_is_spike).physical
      (compute_scoring inputs.month inputs.var_semanal_lineup
        inputs.percentil_premium inputs.spread_adjusted inputs.z_pace
        inputs.var_cambio_5d inputs.chicago_percentile
        inputs.chicago_is_spike).hedge).final_physical
      (evaluate_overrides inputs.var_semanal_lineup
      inputs.percentil_premium inputs.spread_adjusted
      inputs.logistics_flag_active inputs.chicago_is_spike
      inputs.narrativa_confirmada
      (compute_scoring inputs.month inputs.var_semanal_lineup
        inputs.percentil_premium inputs.spread_adjusted inputs.z_pace
        inputs.var_cambio_5d inputs.chicago_percentile
        inputs.chicago_is_spike).physical
      (compute_scoring inputs.month inputs.var_semanal_lineup
        inputs.percentil_premium inputs.spread_adjusted inputs.z_pace
        inputs.var_cambio_5d inputs.chicago_percentile
        inputs.chicago_is_spike).hedge).final_hedge book) rfl
    (physSignOK_compute _) (compute_hedge_mem _ _)
  have ePa : (run_decision_engine inputs (some book)).recomendacao_fisica.acao
      = (modulate_by_book
      (evaluate_overrides inputs.var_semanal_lineup
      inputs.percentil_premium inputs.spread_adjusted
      inputs.logistics_flag_active inputs.chicago_is_spike
      inputs.narrativa_confirmada
      (compute_scoring inputs.month inputs.var_semanal_lineup
        inputs.percentil_premium inputs.spread_adjusted inputs.z_pace
        inputs.var_cambio_5d inputs.chicago_percentile
        inputs.chicago_is_spike).physical
      (compute_scoring inputs.month inputs.var_semanal_lineup
        inputs.percentil_premium inputs.spread_adjusted inputs.z_pace
        inputs.var_cambio_5d inputs.chicago_percentile
        inputs.chicago_is_spike).hedge).final_physical
      (evaluate_overrides inputs.var_semanal_lineup
      inputs.percentil_premium inputs.spread_adjusted
      inputs.logistics_flag_active inputs.chicago_is_spike
      inputs.narrativa_confirmada
      (compute_scoring inputs.month inputs.var_semanal_lineup
        inputs.percentil_premium inputs.spread_adjusted inputs.z_pace
        inputs.var_cambio_5d inputs.chicago_percentile
        inputs.chicago_is_spike).physical
      (compute_scoring inputs.month inputs.var_semanal_lineup
        inputs.percentil_premium inputs.spread_adjusted inputs.z_pace
        inputs.var_cambio_5d inputs.chicago_percentile
        inputs.chicago_is_spike).hedge).final_hedge book).physical.recommendation := rfl
  have ePs : (run_decision_engine inputs
        (some book)).recomendacao_fisica.sizing_pct
      = py_round (calculate_effective_sizing
          (modulate_by_book
      (evaluate_overrides inputs.var_semanal_lineup
      inputs.percentil_premium inputs.spread_adjusted
      inputs.logistics_flag_active inputs.chicago_is_spike
      inputs.narrativa_confirmada
      (compute_scoring inputs.month inputs.var_semanal_lineup
        inputs.percentil_premium inputs.spread_adjusted inputs.z_pace
        inputs.var_cambio_5d inputs.chicago_percentile
        inputs.chicago_is_spike).physical
      (compute_scoring inputs.month inputs.var_semanal_lineup
        inputs.percentil_premium inputs.spread_adjusted inputs.z_pace
        inputs.var_cambio_5d inputs.chicago_percentile
        inputs.chicago_is_spike).hedge).final_physical
      (evaluate_overrides inputs.var_semanal_lineup
      inputs.percentil_premium inputs.spread_adjusted
      inputs.logistics_flag_active inputs.chicago_is_spike
      inputs.narrativa_confirmada
      (compute_scoring inputs.month inputs.var_semanal_lineup
        inputs.percentil_premium inputs.spread_adjusted inputs.z_pace
        inputs.var_cambio_5d inputs.chicago_percentile
        inputs.chicago_is_spike).physical
      (compute_scoring inputs.month inputs.var_semanal_lineup
        inputs.percentil_premium inputs.spread_adjusted inputs.z_pace
        inputs.var_cambio_5d inputs.chicago_percentile
        inputs.chicago_is_spike).hedge).final_hedge book).physical.sizing_pct book) 1 := rfl
  have eHa : (run_decision_engine inputs (some book)).recomendacao_hedge.acao
      = (modulate_by_book
      (evaluate_overrides inputs.var_semanal_lineup
      inputs.percentil_premium inputs.spread_adjusted
      inputs.logistics_flag_active inputs.chicago_is_spike
      inputs.narrativa_confirmada
      (compute_scoring inputs.month inputs.var_semanal_lineup
        inputs.percentil_premium inputs.spread_adjusted inputs.z_pace
        inputs.var_cambio_5d inputs.chicago_percentile
        inputs.chicago_is_spike).physical
      (compute_scoring inputs.month inputs.var_semanal_lineup
        inputs.percentil_premium inputs.spread_adjusted inputs.z_pace
        inputs.var_cambio_5d inputs.chicago_percentile
        inputs.chicago_is_spike).hedge).final_physical
      (evaluate_overrides inputs.var_semanal_lineup
      inputs.percentil_premium inputs.spread_adjusted
      inputs.logistics_flag_active inputs.chicago_is_spike
      inputs.narrativa_confirmada
      (compute_scoring inputs.month inputs.var_semanal_lineup
        inputs.percentil_premium inputs.spread_adjusted inputs.z_pace
        inputs.var_cambio_5d inputs.chicago_percentile
        inputs.chicago_is_spike).physical
      (compute_scoring inputs.month inputs.var_semanal_lineup
        inputs.percentil_premium inputs.spread_adjusted inputs.z_pace
        inputs.var_cambio_5d inputs.chicago_percentile
        inputs.chicago_is_spike).hedge).final_hedge book).hedge.recommendation := rfl
  have eHd : (run_decision_engine inputs
        (some book)).recomendacao_hedge.delta_pp
      = py_round (modulate_by_book
      (evaluate_overrides inputs.var_semanal_lineup
      inputs.percentil_premium inputs.spread_adjusted
      inputs.logistics_flag_active inputs.chicago_is_spike
      inputs.narrativa_confirmada
      (compute_scoring inputs.month inputs.var_semanal_lineup
        inputs.percentil_premium inputs.spread_adjusted inputs.z_pace
        inputs.var_cambio_5d inputs.chicago_percentile
        inputs.chicago_is_spike).physical
      (compute_scoring inputs.month inputs.var_semanal_lineup
        inputs.percentil_premium inputs.spread_adjusted inputs.z_pace
        inputs.var_cambio_5d inputs.chicago_percentile
        inputs.chicago_is_spike).hedge).final_physical
      (evaluate_overrides inputs.var_semanal_lineup
      inputs.percentil_premium inputs.spread_adjusted
      inputs.logistics_flag_active inputs.chicago_is_spike
      inputs.narrativa_confirmada
      (compute_scoring inputs.month inputs.var_semanal_lineup
        inputs.percentil_premium inputs.spread_adjusted inputs.z_pace
        inputs.var_cambio_5d inputs.chicago_percentile
        inputs.chicago_is_spike).physical
      (compute_scoring inputs.month inputs.var_semanal_lineup
        inputs.percentil_premium inputs.spread_adjusted inputs.z_pace
        inputs.var_cambio_5d inputs.chicago_percentile
        inputs.chicago_is_spike).hedge).final_hedge book).hedge.delta_pp 1 := rfl
  refine ⟨calculate_effective_sizing
    (modulate_by_book
      (evaluate_overrides inputs.var_semanal_lineup
      inputs.percentil_premium inputs.spread_adjusted
      inputs.logistics_flag_active inputs.chicago_is_spike
      inputs.narrativa_confirmada
      (compute_scoring inputs.month inputs.var_semanal_lineup
        inputs.percentil_premium inputs.spread_adjusted inputs.z_pace
        inputs.var_cambio_5d inputs.chicago_percentile
        inputs.chicago_is_spike).physical
      (compute_scoring inputs.month inputs.var_semanal_lineup
        inputs.percentil_premium inputs.spread_adjusted inputs.z_pace
        inputs.var_cambio_5d inputs.chicago_percentile
        inputs.chicago_is_spike).hedge).final_physical
      (evaluate_overrides inputs.var_semanal_lineup
      inputs.percentil_premium inputs.spread_adjusted
      inputs.logistics_flag_active inputs.chicago_is_spike
      inputs.narrativa_confirmada
      (compute_scoring inputs.month inputs.var_semanal_lineup
        inputs.percentil_premium inputs.spread_adjusted inputs.z_pace
        inputs.var_cambio_5d inputs.chicago_percentile
        inputs.chicago_is_spike).physical
      (compute_scoring inputs.month inputs.var_semanal_lineup
        inputs.percentil_premium inputs.spread_adjusted inputs.z_pace
        inputs.var_cambio_5d inputs.chicago_percentile
        inputs.chicago_is_spike).hedge).final_hedge book).physical.sizing_pct book, ePs, ?_, ?_, ?_, ?_, ?_, ?_⟩
  · intro hup
    rw [ePa] at hup
    have h0 := hA hup
    exact ⟨h0, by rw [ePs]; exact py_round_nonneg 1 (le_of_lt h0)⟩
  · intro hdn
    rw [ePa] at hdn
    have h0 := hB hdn
    exact ⟨h0, by rw [ePs]; exact py_round_nonpos 1 (le_of_lt h0)⟩
  · intro hm
    rw [ePa] at hm
    rw [ePs, hC hm, py_round_zero]
  · intro hup
    rw [eHa] at hup
    rw [eHd]
    simp [hedgeResultSet] at hD
    rcases hD with hh | hh | hh | hh | hh <;> rw [hh] at hup ⊢ <;>
      first
        | exact absurd hup (by decide)
        | norm_num [py_round, roundHalfEven]
  · intro hdn
    rw [eHa] at hdn
    rw [eHd]
    simp [hedgeResultSet] at hD
    rcases hD with hh | hh | hh | hh | hh <;> rw [hh] at hdn ⊢ <;>
      first
        | exact absurd hdn (by decide)
        | norm_num [py_round, roundHalfEven]
  · intro hm
    rw [eHa] at hm
    rw [eHd]
    simp [hedgeResultSet] at hD
    rcases hD with hh | hh | hh | hh | hh <;> rw [hh] at hm ⊢ <;>
      first
        | exact absurd hm (by decide)
        | norm_num [py_round, roundHalfEven]

/-- Claim C5 counterexample: with aggregate score 85 (action
`aumentar_forte`) and long headroom 0.04 the effective sizing 0.04 rounds to
a reported `sizing_pct` of 0, so an increase-variant action carries a
non-positive reported sizing, refuting the strict sign claim. -/
theorem decision_report_sign_counterexample :
    (run_decision_engine ⟨1, none, 100, -20, some (3/2), some (-3), 50, false, false, false⟩
        (some ⟨1999/25, 80, -50, 0, 60⟩)).recomendacao_fisica.acao
      = PhysicalRecommendation.AUMENTAR_FORTE
    ∧ (run_decision_engine ⟨1, none, 100, -20, some (3/2), some (-3), 50, false, false, false⟩
        (some ⟨1999/25, 80, -50, 0, 60⟩)).recomendacao_fisica.sizing_pct = 0 := by
  have hsc : compute_score_fisico (compute_component_scores none 100 (-20)
      (some (3/2)) (some (-3))) = 85 := by
    norm_num [compute_score_fisico, compute_component_scores, score_lineup,
      score_premium, score_competitiveness, score_demand, score_cambio,
      _linear_map, _clamp, LINEUP_TREND_FORTE_QUEDA, LINEUP_TREND_FORTE_ALTA,
      COMPETITIVENESS_MUITO_BARATO, COMPETITIVENESS_MUITO_CARO,
      DEMAND_Z_FORTE, CAMBIO_FORTE_THRESHOLD, SCORING_WEIGHT_LINEUP,
      SCORING_WEIGHT_PREMIUM, SCORING_WEIGHT_COMPETITIVENESS,
      SCORING_WEIGHT_DEMAND, SCORING_WEIGHT_CAMBIO]
  have hP : (compute_scoring 1 none 100 (-20) (some (3/2)) (some (-3)) 50 false).physical = ⟨.AUMENTAR_FORTE, .FORTE, 25⟩ := by
    show compute_physical_recommendation (compute_score_fisico
      (compute_component_scores none 100 (-20) (some (3/2)) (some (-3)))) = _
    rw [hsc]
    norm_num [compute_physical_recommendation, determine_intensity,
      SCORING_FISICO_MUITO_FORTE]
  have hH : (compute_scoring 1 none 100 (-20) (some (3/2)) (some (-3)) 50 false).hedge = ⟨.MANTER, .NEUTRA, 0⟩ := by
    show compute_hedge_recommendation 50 false = _
    norm_num [compute_hedge_recommendation, HEDGE_PERCENTIL_MUITO_ALTO,
      HEDGE_PERCENTIL_ALTO, HEDGE_PERCENTIL_BAIXO,
      HEDGE_PERCENTIL_MUITO_BAIXO]
  have ePa : (run_decision_engine ⟨1, none, 100, -20, some (3/2), some (-3), 50, false, false, false⟩
        (some ⟨1999/25, 80, -50, 0, 60⟩)).recomendacao_fisica.acao
      = (modulate_by_book
          (evaluate_overrides none 100 (-20) false false false
          (compute_scoring 1 none 100 (-20) (some (3/2)) (some (-3)) 50 false).physical (compute_scoring 1 none 100 (-20) (some (3/2)) (some (-3)) 50 false).hedge).final_physical
          (evaluate_overrides none 100 (-20) false false false
          (compute_scoring 1 none 100 (-20) (some (3/2)) (some (-3)) 50 false).physical (compute_scoring 1 none 100 (-20) (some (3/2)) (some (-3)) 50 false).hedge).final_hedge ⟨1999/25, 80, -50, 0, 60⟩).physical.recommendation := rfl
  have ePs : (run_decision_engine ⟨1, none, 100, -20, some (3/2), some (-3), 50, false, false, false⟩
        (some ⟨1999/25, 80, -50, 0, 60⟩)).recomendacao_fisica.sizing_pct
      = py_round (calculate_effective_sizing
          (modulate_by_book
            (evaluate_overrides none 100 (-20) false false false
          (compute_scoring 1 none 100 (-20) (some (3/2)) (some (-3)) 50 false).physical (compute_scoring 1 none 100 (-20) (some (3/2)) (some (-3)) 50 false).hedge).final_physical
            (evaluate_overrides none 100 (-20) false false false
          (compute_scoring 1 none 100 (-20) (some (3/2)) (some (-3)) 50 false).physical (compute_scoring 1 none 100 (-20) (some (3/2)) (some (-3)) 50 false).hedge).final_hedge ⟨1999/25, 80, -50, 0, 60⟩).physical.sizing_pct
          ⟨1999/25, 80, -50, 0, 60⟩) 1 := rfl
  rw [hP, hH] at ePa ePs
  have hEVp : (evaluate_overrides none 100 (-20) false false false
      ⟨.AUMENTAR_FORTE, .FORTE, 25⟩ ⟨.MANTER, .NEUTRA, 0⟩).final_physical = ⟨.AUMENTAR_FORTE, .FORTE, 25⟩ := by
    norm_num [evaluate_overrides, override_candidates, check_logistica,
      check_queda_conjunta, check_armadilha_premio,
      check_competitividade_critica, check_chicago_especulativo,
      CRITICAL_SPREAD_THRESHOLD, List.insertionSort]
  have hEVh : (evaluate_overrides none 100 (-20) false false false
      ⟨.AUMENTAR_FORTE, .FORTE, 25⟩ ⟨.MANTER, .NEUTRA, 0⟩).final_hedge = ⟨.MANTER, .NEUTRA, 0⟩ := by
    norm_num [evaluate_overrides, override_candidates, check_logistica,
      check_queda_conjunta, check_armadilha_premio,
      check_competitividade_critica, check_chicago_especulativo,
      CRITICAL_SPREAD_THRESHOLD, List.insertionSort]
  rw [hEVp, hEVh] at ePa ePs
  have hMDp : (modulate_by_book ⟨.AUMENTAR_FORTE, .FORTE, 25⟩
      ⟨.MANTER, .NEUTRA, 0⟩ ⟨1999/25, 80, -50, 0, 60⟩).physical
      = ⟨.AUMENTAR_FORTE, .FORTE, 25⟩ := by
    norm_num [modulate_by_book, BookState.is_at_long_limit,
      BookState.is_at_short_limit]
  rw [hMDp] at ePa ePs
  refine ⟨ePa, ?_⟩
  rw [ePs]
  norm_num [calculate_effective_sizing, BookState.exposicao_disponivel_long,
    py_round, roundHalfEven]

theorem decision_report_sign_invariant_amended_witness :
    (run_decision_engine ⟨1, none, 50, 0, none, none, 50, false, false, false⟩
      (some ⟨0, 80, -50, 0, 60⟩)).recomendacao_fisica.sizing_pct = 0 := by
  have hsc : compute_score_fisico (compute_component_scores none 50 0
      none none) = 50 := by
    norm_num [compute_score_fisico, compute_component_scores, score_lineup,
      score_premium, score_competitiveness, score_demand, score_cambio,
      _linear_map, _clamp, COMPETITIVENESS_MUITO_BARATO,
      COMPETITIVENESS_MUITO_CARO, SCORING_WEIGHT_LINEUP,
      SCORING_WEIGHT_PREMIUM, SCORING_WEIGHT_COMPETITIVENESS,
      SCORING_WEIGHT_DEMAND, SCORING_WEIGHT_CAMBIO]
  have hP : (compute_scoring 1 none 50 0 none none 50 false).physical = ⟨.MANTER, .NEUTRA, 0⟩ := by
    show compute_physical_recommendation (compute_score_fisico
      (compute_component_scores none 50 0 none none)) = _
    rw [hsc]
    norm_num [compute_physical_recommendation, determine_intensity,
      SCORING_FISICO_MUITO_FORTE, SCORING_FISICO_FORTE,
      SCORING_FISICO_FRACO, SCORING_FISICO_MUITO_FRACO]
  have hH : (compute_scoring 1 none 50 0 none none 50 false).hedge = ⟨.MANTER, .NEUTRA, 0⟩ := by
    show compute_hedge_recommendation 50 false = _
    norm_num [compute_hedge_recommendation, HEDGE_PERCENTIL_MUITO_ALTO,
      HEDGE_PERCENTIL_ALTO, HEDGE_PERCENTIL_BAIXO,
      HEDGE_PERCENTIL_MUITO_BAIXO]
  have ePa : (run_decision_engine ⟨1, none, 50, 0, none, none, 50, false, false, false⟩
        (some ⟨0, 80, -50, 0, 60⟩)).recomendacao_fisica.acao
      = (modulate_by_book
          (evaluate_overrides none 50 0 false false false
          (compute_scoring 1 none 50 0 none none 50 false).physical (compute_scoring 1 none 50 0 none none 50 false).hedge).final_physical
          (evaluate_overrides none 50 0 false false false
          (compute_scoring 1 none 50 0 none none 50 false).physical (compute_scoring 1 none 50 0 none none 50 false).hedge).final_hedge ⟨0, 80, -50, 0, 60⟩).physical.recommendation := rfl
  rw [hP, hH] at ePa
  have hEVp : (evaluate_overrides none 50 0 false false false
      ⟨.MANTER, .NEUTRA, 0⟩ ⟨.MANTER, .NEUTRA, 0⟩).final_physical = ⟨.MANTER, .NEUTRA, 0⟩ := by
    norm_num [evaluate_overrides, override_candidates, check_logistica,
      check_queda_conjunta, check_armadilha_premio,
      check_competitividade_critica, check_chicago_especulativo,
      CRITICAL_SPREAD_THRESHOLD, List.insertionSort]
  have hEVh : (evaluate_overrides none 50 0 false false false
      ⟨.MANTER, .NEUTRA, 0⟩ ⟨.MANTER, .NEUTRA, 0⟩).final_hedge = ⟨.MANTER, .NEUTRA, 0⟩ := by
    norm_num [evaluate_overrides, override_candidates, check_logistica,
      check_queda_conjunta, check_armadilha_premio,
      check_competitividade_critica, check_chicago_especulativo,
      CRITICAL_SPREAD_THRESHOLD, List.insertionSort]
  rw [hEVp, hEVh] at ePa
  have hMDp : (modulate_by_book ⟨.MANTER, .NEUTRA, 0⟩
      ⟨.MANTER, .NEUTRA, 0⟩ ⟨0, 80, -50, 0, 60⟩).physical
      = ⟨.MANTER, .NEUTRA, 0⟩ := by
    norm_num [modulate_by_book, BookState.is_at_long_limit,
      BookState.is_at_short_limit]
  rw [hMDp] at ePa
  obtain ⟨eff, hrnd, -, -, hC, -, -, -⟩ :=
    decision_report_sign_invariant_amended ⟨1, none, 50, 0, none, none, 50, false, false, false⟩
      ⟨0, 80, -50, 0, 60⟩ _ rfl
  exact hC ePa
